import Mathlib

/-!
Shallow embedding of the predictive-maintenance core of the IOTsensor
repository (backend/ml_predictor.py and backend/ai_insights.py).

Sensor values are embedded as exact rationals; the pandas dataframes are
embedded as lists of records (ordered oldest to newest, as the data source
provides them); the fitted scikit-learn models, which are opaque learned
artifacts, are embedded as abstract total functions carrying exactly the
interface the serving code consumes (predicted class in the ordinal label
set 0/1/2 with its probability for the classifier; decision score and
outlier predicate for the isolation forest).  All embedded operations are
total Lean functions: the Python originals perform no raising operation on
these paths, so totality mirrors the "never throws" behaviour.
-/

namespace IOTSensor

/-- A sensor reading row, mirroring the columns of the sensor dataframe
(models.py SensorData).  The first six columns are always present; the rest
are optional and the code substitutes 0 where a column is absent. -/
structure SensorReading where
  equipment_id : Nat
  timestamp : String
  temperature : ℚ
  vibration : ℚ
  power_consumption : ℚ
  usage_hours : ℚ
  humidity : Option ℚ := none
  pressure : Option ℚ := none
  rpm : Option ℚ := none
  efficiency : Option ℚ := none
  oil_level : Option ℚ := none
  noise_level : Option ℚ := none
deriving DecidableEq

/-- An equipment row: only the columns the embedded code reads. -/
structure Equipment where
  id : Nat
  status : String
deriving DecidableEq

/-- Feature vector over the fixed schema
[temperature, vibration, power_consumption, usage_hours, humidity,
pressure, rpm, efficiency, oil_level, noise_level]; a missing optional
column contributes 0 (ml_predictor.py lines 122-136). -/
def featureVector (r : SensorReading) : List ℚ :=
  [r.temperature, r.vibration, r.power_consumption, r.usage_hours,
   r.humidity.getD 0, r.pressure.getD 0, r.rpm.getD 0,
   r.efficiency.getD 0, r.oil_level.getD 0, r.noise_level.getD 0]

/-- The fitted RandomForestClassifier, abstracted to the interface the
serving path consumes: from a feature vector, the argmax class of
predict_proba (an ordinal label in 0/1/2, since training labels come from
the status map Active 0 / Warning 1 / Critical 2 with NaN filled by 0) and
the maximal probability. -/
structure Classifier where
  predict : List ℚ → Fin 3 × ℚ

/-- The fitted IsolationForest, abstracted to decision_function and the
outlier predicate (predict == -1). -/
structure AnomalyModel where
  decision : List ℚ → ℚ
  isOutlier : List ℚ → Bool

/-- Python round(q, 2) on the exact rational values arising here.  The
values reported by this code never sit on a half-cent tie, so the
tie-breaking convention is irrelevant; we embed round-half-up. -/
def round2 (q : ℚ) : ℚ := (Int.floor (q * 100 + 1/2) : ℚ) / 100

/-- Python round(q, 3), used for anomaly scores. -/
def round3 (q : ℚ) : ℚ := (Int.floor (q * 1000 + 1/2) : ℚ) / 1000

/-- Temperature contribution of the rule-based score
(ml_predictor.py lines 93-98). -/
def tempDelta (t : ℚ) : ℚ :=
  if t > 60 then 0.4 else if t > 50 then 0.2 else 0

/-- Vibration contribution of the rule-based score (lines 101-106). -/
def vibDelta (v : ℚ) : ℚ :=
  if v > 0.3 then 0.4 else if v > 0.2 then 0.2 else 0

/-- Usage-hours contribution of the rule-based score (lines 109-114). -/
def usageDelta (u : ℚ) : ℚ :=
  if u > 2000 then 0.3 else if u > 1500 then 0.15 else 0

/-- The rule-based risk score: the sum of the three additive
contributions accumulated into risk_score (lines 89-114). -/
def ruleScore (r : SensorReading) : ℚ :=
  tempDelta r.temperature + vibDelta r.vibration + usageDelta r.usage_hours

/-- The human-readable factor strings, in evaluation order (lines 89-114). -/
def ruleFactors (r : SensorReading) : List String :=
  (if r.temperature > 60 then ["High temperature"]
   else if r.temperature > 50 then ["Elevated temperature"] else [])
  ++ (if r.vibration > 0.3 then ["High vibration"]
      else if r.vibration > 0.2 then ["Elevated vibration"] else [])
  ++ (if r.usage_hours > 2000 then ["High usage hours"]
      else if r.usage_hours > 1500 then ["Moderate usage hours"] else [])

/-- The ML risk rescaling: predicted class divided by 2.0 (line 144). -/
def mlRiskScore (cls : Fin 3) : ℚ := (cls : ℚ) / 2

/-- The risk score the banding step receives: the raw rule score when no
classifier exists, else the average of the rule score and the rescaled
model score (lines 116-148).  No clamping is performed anywhere. -/
def fusedRisk (models : Option Classifier) (r : SensorReading) : ℚ :=
  match models with
  | none => ruleScore r
  | some clf =>
      (ruleScore r + mlRiskScore (clf.predict (featureVector r)).1) / 2

/-- The final recommendation band and its (pre-rounding) confidence,
selected from the fused risk score (lines 150-162). -/
def determineFinal (risk : ℚ) : String × ℚ :=
  if risk ≥ 0.7 then ("Immediate maintenance required", min risk 0.95)
  else if risk ≥ 0.4 then ("Maintenance recommended within 7 days", risk)
  else if risk ≥ 0.2 then ("Routine check recommended", risk)
  else ("No maintenance needed", 1 - risk)

/-- The two shapes predict_maintenance can return: the no-data sentinel
dict has exactly the keys prediction and confidence (lines 77-83); the
full result dict carries the keys of lines 164-173. -/
inductive PredictionResult where
  | noData (prediction : String) (confidence : ℚ)
  | result (equipment_id : Nat) (prediction : String) (confidence : ℚ)
      (risk_score : ℚ) (factors : List String) ( ml_prediction : Option Nat)
      (ml_confidence : ℚ) (timestamp : String)
deriving DecidableEq

/-- The value stored under the risk_score key, if that key is present. -/
def PredictionResult.riskScoreField : PredictionResult → Option ℚ
  | .noData _ _ => none
  | .result _ _ _ rs _ _ _ _ => some rs

/-- The value stored under the prediction key. -/
def PredictionResult.predictionField : PredictionResult → String
  | .noData p _ => p
  | .result _ p _ _ _ _ _ _ => p

/-- The value stored under the confidence key. -/
def PredictionResult.confidenceField : PredictionResult → ℚ
  | .noData _ c => c
  | .result _ _ c _ _ _ _ _ => c

/-- Overwrite the timestamp field when one is present; the sentinel has
no timestamp key and is unchanged. -/
def PredictionResult.setTimestamp : PredictionResult → String → PredictionResult
  | .noData p c, _ => .noData p c
  | .result e p c rs f mp mc _, t => .result e p c rs f mp mc t

/-- The body of predict_maintenance once the latest reading of the
equipment is in hand (lines 89-173).  The ml_prediction / ml_confidence
fields are None / 0.0 when no classifier exists. -/
def predictFromLatest (models : Option Classifier) (equipment_id : Nat)
    (latest : SensorReading) (now : String) : PredictionResult :=
  let risk := fusedRisk models latest
  let mlPred : Option Nat :=
    match models with
    | none => none
    | some clf => some ((clf.predict (featureVector latest)).1 : Nat)
  let mlConf : ℚ :=
    match models with
    | none => 0
    | some clf => (clf.predict (featureVector latest)).2
  let band := determineFinal risk
  .result equipment_id band.1 (round2 band.2) (round2 risk)
    (ruleFactors latest) mlPred (round2 mlConf) now

/-- predict_maintenance (lines 70-173).  The sensor dataframe is the
ordered list of readings; the latest reading of the equipment is the last
matching row (iloc[-1] of the filtered frame).  Both empty-frame checks
(lines 77 and 82) return the same sentinel, so they collapse into the
single case where no matching row exists.  The wall clock datetime.now()
is passed in as the argument now. -/
def predict_maintenance (sensor : List SensorReading)
    (models : Option Classifier) (equipment_id : Nat) (now : String) :
    PredictionResult :=
  match (sensor.filter (fun r => r.equipment_id == equipment_id)).getLast? with
  | none => .noData "No data available" 0
  | some latest => predictFromLatest models equipment_id latest now

/-! ### Equipment health score (get_equipment_health_score, lines 258-336) -/

/-- The health score before clamping: sequential deductions from 100
(lines 276-315).  Efficiency and oil level only deduct when their column
is present in the reading. -/
def healthScoreUnclamped (r : SensorReading) : Int :=
  let h : Int := 100
  let h := if r.temperature > 60 then h - 30
           else if r.temperature > 50 then h - 15
           else if r.temperature < 20 then h - 10 else h
  let h := if r.vibration > 0.3 then h - 25
           else if r.vibration > 0.2 then h - 10 else h
  let h := match r.efficiency with
           | some e => if e < 70 then h - 20 else if e < 80 then h - 10 else h
           | none => h
  let h := match r.oil_level with
           | some o => if o < 30 then h - 25 else if o < 50 then h - 10 else h
           | none => h
  if r.usage_hours > 2000 then h - 15
  else if r.usage_hours > 1500 then h - 5 else h

/-- health_score = max(0, min(100, health_score)) (line 317). -/
def healthScoreValue (r : SensorReading) : Int :=
  max 0 (min 100 (healthScoreUnclamped r))

/-- The status band of a clamped health score (lines 320-329). -/
def healthStatus (h : Int) : String :=
  if h ≥ 90 then "Excellent"
  else if h ≥ 75 then "Good"
  else if h ≥ 60 then "Fair"
  else if h ≥ 40 then "Poor"
  else "Critical"

/-- The two shapes get_equipment_health_score can return: the no-data
dict has exactly the keys health_score and status (lines 265-271); the
full dict carries the keys of lines 331-336.  health_score is an integer
(round(h, 1) on an integer is the integer itself). -/
inductive HealthResult where
  | noData (health_score : Int) (status : String)
  | result (equipment_id : Nat) (health_score : Int) (status : String)
      (timestamp : String)
deriving DecidableEq

/-- The value stored under the health_score key. -/
def HealthResult.scoreField : HealthResult → Int
  | .noData h _ => h
  | .result _ h _ _ => h

/-- The value stored under the status key. -/
def HealthResult.statusField : HealthResult → String
  | .noData _ s => s
  | .result _ _ s _ => s

/-- get_equipment_health_score (lines 258-336).  The source also fetches
the equipment dataframe but never reads it.  Both empty-frame checks
(lines 265 and 270) return the same no-data dict, so they collapse into
the single case where no matching row exists. -/
def get_equipment_health_score (sensor : List SensorReading)
    (equipment_id : Nat) (now : String) : HealthResult :=
  match (sensor.filter (fun r => r.equipment_id == equipment_id)).getLast? with
  | none => .noData 0 "No data"
  | some latest =>
      .result equipment_id (healthScoreValue latest)
        (healthStatus (healthScoreValue latest)) now

/-! ### Anomaly detection (detect_anomalies, lines 206-256) -/

/-- One flagged reading (lines 241-247); the features snapshot keeps the
four base columns. -/
structure AnomalyRecord where
  equipment_id : Nat
  timestamp : String
  anomaly_score : ℚ
  severity : String
  features : List ℚ
deriving DecidableEq

/-- The two shapes detect_anomalies can return: the unavailable dict has
the keys anomalies and message (line 213); the full dict has anomalies,
total_anomalies and timestamp (lines 252-256). -/
inductive AnomalyResponse where
  | unavailable (anomalies : List AnomalyRecord) (message : String)
  | detected (anomalies : List AnomalyRecord) (total_anomalies : Nat)
      (timestamp : String)
deriving DecidableEq

/-- The list stored under the anomalies key. -/
def AnomalyResponse.anomaliesField : AnomalyResponse → List AnomalyRecord
  | .unavailable a _ => a
  | .detected a _ _ => a

/-- detect_anomalies (lines 206-256).  The guard at line 212 returns the
unavailable response when the sensor frame is empty or no anomaly model
was fitted.  Python truthiness on equipment_id: passing id 0 behaves like
passing no id at all (the whole dataset is scanned). -/
def detect_anomalies (sensor : List SensorReading)
    (models : Option AnomalyModel) (equipment_id : Option Nat)
    (now : String) : AnomalyResponse :=
  match models with
  | none => .unavailable [] "No anomaly detection model available"
  | some det =>
    if sensor.isEmpty then
      .unavailable [] "No anomaly detection model available"
    else
      let eqData :=
        match equipment_id with
        | some eid =>
            if eid = 0 then sensor
            else sensor.filter (fun r => r.equipment_id == eid)
        | none => sensor
      let anomalies := eqData.filterMap (fun row =>
        let fv := featureVector row
        let score := det.decision fv
        if det.isOutlier fv then
          some { equipment_id := row.equipment_id,
                 timestamp := row.timestamp,
                 anomaly_score := round3 score,
                 severity := if score < -0.5 then "High" else "Medium",
                 features := [row.temperature, row.vibration,
                              row.power_consumption, row.usage_hours] }
        else none)
      .detected anomalies anomalies.length now

/-! ### Model training (_train_models, lines 18-68) -/

/-- The failure-label status map of line 37. -/
def statusLabelMap (status : String) : Option Nat :=
  if status = "Active" then some 0
  else if status = "Warning" then some 1
  else if status = "Critical" then some 2
  else none

/-- equipment_df.set_index('id')['status'] lookup for one equipment id. -/
def equipmentStatus (equipment : List Equipment) (eid : Nat) : Option String :=
  (equipment.find? (fun e => e.id == eid)).map (fun e => e.status)

/-- The failure_risk label a sensor row ends up with after
y.fillna(0) (lines 38-44): an unmapped status or an unknown equipment id
maps to NaN, which fillna turns into 0; after that fill nothing is NaN,
so the valid_indices filter of lines 47-49 removes no row. -/
def failureLabel (equipment : List Equipment) (r : SensorReading) : Nat :=
  ((equipmentStatus equipment r.equipment_id).bind statusLabelMap).getD 0

/-- The (X, y) rows the fit sees: every sensor row, paired with its filled
label (no row is excluded, since fillna(0) precedes the NaN filter). -/
def trainingRows (sensor : List SensorReading) (equipment : List Equipment) :
    List (SensorReading × Nat) :=
  sensor.map (fun r => (r, failureLabel equipment r))

/-- Whether _train_models populates the models dict with both the failure
predictor and the anomaly detector: the early return of line 24 when
either frame is empty, then the gate len(X) > 10 of line 51, where X is
every sensor row.  Both models are set in the same branch, so one Boolean
describes both. -/
def trainingOccurs (sensor : List SensorReading)
    (equipment : List Equipment) : Bool :=
  if sensor.isEmpty || equipment.isEmpty then false
  else decide ((trainingRows sensor equipment).length > 10)

/-! ### Safety insights (ai_insights.py, _analyze_safety_metrics,
lines 226-265).  The insight engine reads the same sensor rows; only the
fields it touches matter here. -/

/-- recent_sensors = sensor_data[-5:] if len(sensor_data) >= 5 else
sensor_data (line 234): the last five rows of the whole batch. -/
def recentSensors (sensor : List SensorReading) : List SensorReading :=
  if sensor.length ≥ 5 then sensor.drop (sensor.length - 5) else sensor

/-- The violations one reading contributes (lines 237-241): one for
temperature above 80 and one for vibration above 5, so a single reading
can contribute two.  The Python truthiness guard on the field value is
redundant (0 exceeds neither threshold) and the embedded fields are
always present. -/
def readingViolations (r : SensorReading) : Nat :=
  (if r.temperature > 80 then 1 else 0) + (if r.vibration > 5 then 1 else 0)

/-- safety_violations: the total over the recent window (lines 236-241),
counted over the whole batch with no grouping by equipment. -/
def safetyViolations (sensor : List SensorReading) : Nat :=
  ((recentSensors sensor).map readingViolations).sum

/-- Whether _analyze_safety_metrics emits its (single, high-impact,
confidence 0.95) safety insight: the empty-batch early return of
line 230, then the gate safety_violations > 2 of line 243. -/
def safetyInsightEmitted (sensor : List SensorReading) : Bool :=
  if sensor.isEmpty then false
  else decide (safetyViolations sensor > 2)

/-! ### Spec-side definitions, for refinement comparison only -/

/-- Written from the claim's words, not from the source: a training row is
valid only when its equipment status maps to an ordinal label, and rows
with unmapped statuses are excluded; this counts the valid labeled rows. -/
def specValidLabeledRowCount (sensor : List SensorReading)
    (equipment : List Equipment) : Nat :=
  (sensor.filterMap
    (fun r => (equipmentStatus equipment r.equipment_id).bind statusLabelMap)).length

/-- Written from the claim's words, not from the source: the last five
readings belonging to one given equipment. -/
def specEquipmentRecent (sensor : List SensorReading) (eid : Nat) :
    List SensorReading :=
  let own := sensor.filter (fun r => r.equipment_id == eid)
  if own.length ≥ 5 then own.drop (own.length - 5) else own

/-- Written from the claim's words, not from the source: some single
equipment has at least 3 threshold violations within its own last five
readings. -/
def specSafetyFlag (sensor : List SensorReading) : Bool :=
  sensor.any (fun r =>
    3 ≤ ((specEquipmentRecent sensor r.equipment_id).map readingViolations).sum)

/-! ### Concrete fixtures -/

/-- A reading with the three rule-relevant fields set and every optional
column absent. -/
def baseReading (eid : Nat) (ts : String) (t v u : ℚ) : SensorReading :=
  { equipment_id := eid, timestamp := ts, temperature := t, vibration := v,
    power_consumption := 0, usage_hours := u }

/-- All three rule factors at their worst band: rule score 1.1. -/
def worstReading : SensorReading := baseReading 1 "t0" 70 0.4 2500

/-- The end-to-end example reading of the spec: temperature 65,
vibration 0.1, usage 100. -/
def boundaryReading : SensorReading := baseReading 1 "t0" 65 0.1 100

/-- The health-score example reading: temperature 70, vibration 0.4,
efficiency 60, oil level 20, usage 2500. -/
def criticalReading : SensorReading :=
  { baseReading 1 "t0" 70 0.4 2500 with
    efficiency := some 60, oil_level := some 20 }

/-- A reading with no deductions at all: health score 100. -/
def goodReading : SensorReading := baseReading 1 "t0" 40 0.05 100

/-- A quiet reading used for the determinism example. -/
def quietReading : SensorReading := baseReading 1 "t0" 25 0.1 100

/-! ### Shared helper lemmas -/

theorem round2_mono {x y : ℚ} (h : x ≤ y) : round2 x ≤ round2 y := by
  unfold round2
  have hf : Int.floor (x * 100 + 1/2) ≤ Int.floor (y * 100 + 1/2) :=
    Int.floor_le_floor (by linarith)
  have : ((Int.floor (x * 100 + 1/2) : ℚ)) ≤ (Int.floor (y * 100 + 1/2) : ℚ) := by
    exact_mod_cast hf
  linarith

theorem round2_nonneg {x : ℚ} (h : 0 ≤ x) : 0 ≤ round2 x := by
  unfold round2
  have : (0 : ℤ) ≤ Int.floor (x * 100 + 1/2) := by
    rw [Int.le_floor]
    push_cast
    linarith
  have : (0 : ℚ) ≤ (Int.floor (x * 100 + 1/2) : ℚ) := by exact_mod_cast this
  linarith

theorem round2_oneone : round2 (1.1 : ℚ) = 1.1 := by
  norm_num [round2]

theorem tempDelta_bounds (t : ℚ) : 0 ≤ tempDelta t ∧ tempDelta t ≤ 0.4 := by
  unfold tempDelta
  split_ifs <;> norm_num

theorem vibDelta_bounds (v : ℚ) : 0 ≤ vibDelta v ∧ vibDelta v ≤ 0.4 := by
  unfold vibDelta
  split_ifs <;> norm_num

theorem usageDelta_bounds (u : ℚ) : 0 ≤ usageDelta u ∧ usageDelta u ≤ 0.3 := by
  unfold usageDelta
  split_ifs <;> norm_num

theorem ruleScore_bounds (r : SensorReading) :
    0 ≤ ruleScore r ∧ ruleScore r ≤ 1.1 := by
  obtain ⟨h1, h2⟩ := tempDelta_bounds r.temperature
  obtain ⟨h3, h4⟩ := vibDelta_bounds r.vibration
  obtain ⟨h5, h6⟩ := usageDelta_bounds r.usage_hours
  unfold ruleScore
  constructor <;> linarith

theorem mlRiskScore_bounds (c : Fin 3) :
    0 ≤ mlRiskScore c ∧ mlRiskScore c ≤ 1 := by
  unfold mlRiskScore
  have h0 : (0 : ℚ) ≤ (c : ℚ) := by positivity
  have h2 : ((c : ℕ) : ℚ) ≤ 2 := by
    have := Fin.is_le c
    exact_mod_cast this
  constructor <;> [linarith; linarith]

theorem fusedRisk_bounds (models : Option Classifier) (r : SensorReading) :
    0 ≤ fusedRisk models r ∧ fusedRisk models r ≤ 1.1 := by
  obtain ⟨hr0, hr1⟩ := ruleScore_bounds r
  cases models with
  | none => exact ⟨hr0, hr1⟩
  | some clf =>
      obtain ⟨hm0, hm1⟩ := mlRiskScore_bounds (clf.predict (featureVector r)).1
      unfold fusedRisk
      constructor <;> [linarith; linarith]

theorem tempDelta_mono {t1 t2 : ℚ} (h : t1 ≤ t2) :
    tempDelta t1 ≤ tempDelta t2 := by
  unfold tempDelta
  split_ifs <;> norm_num <;> linarith

theorem vibDelta_mono {v1 v2 : ℚ} (h : v1 ≤ v2) :
    vibDelta v1 ≤ vibDelta v2 := by
  unfold vibDelta
  split_ifs <;> norm_num <;> linarith

theorem usageDelta_mono {u1 u2 : ℚ} (h : u1 ≤ u2) :
    usageDelta u1 ≤ usageDelta u2 := by
  unfold usageDelta
  split_ifs <;> norm_num <;> linarith

theorem riskScoreField_predictFromLatest (m : Option Classifier) (e : Nat)
    (r : SensorReading) (t : String) :
    (predictFromLatest m e r t).riskScoreField =
      some (round2 (fusedRisk m r)) := rfl

theorem subIf3 (h k1 k2 k3 : Int) (c1 c2 c3 : Prop)
    [Decidable c1] [Decidable c2] [Decidable c3] :
    (if c1 then h - k1 else if c2 then h - k2 else if c3 then h - k3 else h)
      = h - (if c1 then k1 else if c2 then k2 else if c3 then k3 else 0) := by
  split_ifs <;> omega

theorem subIf2 (h k1 k2 : Int) (c1 c2 : Prop) [Decidable c1] [Decidable c2] :
    (if c1 then h - k1 else if c2 then h - k2 else h)
      = h - (if c1 then k1 else if c2 then k2 else 0) := by
  split_ifs <;> omega

theorem subIfTop (h k x : Int) (c : Prop) [Decidable c] :
    (if c then h - k else h - x) = h - (if c then k else x) := by
  split_ifs <;> rfl

theorem worstRisk_eval :
    (predict_maintenance [worstReading] none 1 "t").riskScoreField
      = some (1.1 : ℚ) := by
  have h1 : predict_maintenance [worstReading] none 1 "t" =
      predictFromLatest none 1 worstReading "t" := rfl
  rw [h1, riskScoreField_predictFromLatest]
  have hrisk : fusedRisk none worstReading = 1.1 := by
    norm_num [fusedRisk, ruleScore, tempDelta, vibDelta, usageDelta,
      worstReading, baseReading]
  rw [hrisk, round2_oneone]

/-! ### Claims -/

/-- Claim C1 fails on the code as stated: with all three rule factors in
their worst band and no classifier, the reported risk_score is 1.1, which
lies outside [0,1]; no clamping step exists in predict_maintenance. -/
theorem C1_counterexample :
    (predict_maintenance [worstReading] none 1 "t").riskScoreField
      = some (1.1 : ℚ) ∧ ¬ ((1.1 : ℚ) ≤ 1) := by
  constructor
  · exact worstRisk_eval
  · norm_num

/-- Claim C1, amended: the fused risk score (rule score alone without a
classifier, else the average of the rule score and the rescaled model
score) is never clamped and lies in [0, 1.1]; consequently every reported
risk_score lies in [0, 1.1], and the band selection receives the
unclamped value. -/
theorem C1_risk_score_range :
    (∀ (models : Option Classifier) (r : SensorReading),
        0 ≤ fusedRisk models r ∧ fusedRisk models r ≤ 1.1) ∧
    (∀ (sensor : List SensorReading) (models : Option Classifier)
        (eqid : Nat) (now : String) (q : ℚ),
        (predict_maintenance sensor models eqid now).riskScoreField = some q →
        0 ≤ q ∧ q ≤ 1.1) := by
  refine ⟨fusedRisk_bounds, ?_⟩
  intro sensor models eqid now q hq
  unfold predict_maintenance at hq
  cases hlast : (sensor.filter (fun r => r.equipment_id == eqid)).getLast? with
  | none =>
      rw [hlast] at hq
      simp [PredictionResult.riskScoreField] at hq
  | some latest =>
      rw [hlast, riskScoreField_predictFromLatest] at hq
      obtain ⟨h0, h1⟩ := fusedRisk_bounds models latest
      have hq' : round2 (fusedRisk models latest) = q := by
        exact Option.some.inj hq
      subst hq'
      refine ⟨round2_nonneg h0, ?_⟩
      have := round2_mono h1
      rwa [round2_oneone] at this

/-- Witness for C1_risk_score_range at the worst-band reading. -/
theorem C1_risk_score_range_witness : 0 ≤ (1.1 : ℚ) ∧ (1.1 : ℚ) ≤ 1.1 :=
  C1_risk_score_range.2 [worstReading] none 1 "t" 1.1 worstRisk_eval

/-- Claim C2 fails on the code as stated: the zero-readings sentinel is
the dict with keys prediction and confidence only; it carries no
risk_score key at all, so risk_score is not 0 there — it is absent. -/
theorem C2_counterexample :
    predict_maintenance [] none 7 "t" =
      PredictionResult.noData "No data available" 0 ∧
    (predict_maintenance [] none 7 "t").riskScoreField ≠ some 0 := by
  constructor
  · rfl
  · decide

/-- Claim C2, amended: for an equipment with zero readings (including an
entirely empty sensor dataset) predict_maintenance returns the sentinel
dict with prediction "No data available" and confidence 0, and with no
risk_score field; the embedded function is total, mirroring that the
source path performs no raising operation. -/
theorem C2_no_data_sentinel (sensor : List SensorReading)
    (models : Option Classifier) (eqid : Nat) (now : String)
    (h : sensor.filter (fun r => r.equipment_id == eqid) = []) :
    predict_maintenance sensor models eqid now =
      PredictionResult.noData "No data available" 0 ∧
    (predict_maintenance sensor models eqid now).riskScoreField = none := by
  unfold predict_maintenance
  rw [h]
  exact ⟨rfl, rfl⟩

/-- Witness for C2_no_data_sentinel on the empty dataset. -/
theorem C2_no_data_sentinel_witness :
    predict_maintenance [] none 3 "t" =
      PredictionResult.noData "No data available" 0 ∧
    (predict_maintenance [] none 3 "t").riskScoreField = none :=
  C2_no_data_sentinel [] none 3 "t" rfl

/-- Claim C3, confirmed: the recommendation bands have inclusive lower
boundaries with the stated confidences, the prediction and confidence
fields of every produced result come from that band map applied to the
fused score, and the boundary example (temperature 65, vibration 0.1,
usage 100, no model: rule score exactly 0.4) lands in the
"Maintenance recommended within 7 days" band with confidence 0.4. -/
theorem C3_band_thresholds :
    (∀ risk : ℚ,
      (0.7 ≤ risk →
        determineFinal risk = ("Immediate maintenance required", min risk 0.95)) ∧
      (0.4 ≤ risk ∧ risk < 0.7 →
        determineFinal risk = ("Maintenance recommended within 7 days", risk)) ∧
      (0.2 ≤ risk ∧ risk < 0.4 →
        determineFinal risk = ("Routine check recommended", risk)) ∧
      (risk < 0.2 →
        determineFinal risk = ("No maintenance needed", 1 - risk))) ∧
    (∀ (models : Option Classifier) (e : Nat) (r : SensorReading) (t : String),
      (predictFromLatest models e r t).predictionField =
        (determineFinal (fusedRisk models r)).1 ∧
      (predictFromLatest models e r t).confidenceField =
        round2 (determineFinal (fusedRisk models r)).2) ∧
    predict_maintenance [boundaryReading] none 1 "t" =
      PredictionResult.result 1 "Maintenance recommended within 7 days"
        0.4 0.4 ["High temperature"] none 0 "t" := by
  refine ⟨?_, ?_, ?_⟩
  · intro risk
    refine ⟨?_, ?_, ?_, ?_⟩
    · intro h
      unfold determineFinal
      rw [if_pos h]
    · rintro ⟨h1, h2⟩
      unfold determineFinal
      rw [if_neg (by intro hc; exact absurd hc (by linarith)), if_pos h1]
    · rintro ⟨h1, h2⟩
      unfold determineFinal
      rw [if_neg (by intro hc; exact absurd hc (by linarith)),
          if_neg (by intro hc; exact absurd hc (by linarith)), if_pos h1]
    · intro h
      unfold determineFinal
      rw [if_neg (by intro hc; exact absurd hc (by linarith)),
          if_neg (by intro hc; exact absurd hc (by linarith)),
          if_neg (by intro hc; exact absurd hc (by linarith))]
  · exact fun models e r t => ⟨rfl, rfl⟩
  · have h1 : predict_maintenance [boundaryReading] none 1 "t" =
        predictFromLatest none 1 boundaryReading "t" := rfl
    have hrisk : fusedRisk none boundaryReading = 0.4 := by
      norm_num [fusedRisk, ruleScore, tempDelta, vibDelta, usageDelta,
        boundaryReading, baseReading]
    have hdf : determineFinal (0.4 : ℚ) =
        ("Maintenance recommended within 7 days", 0.4) := by
      norm_num [determineFinal]
    have hr2 : round2 (0.4 : ℚ) = 0.4 := by norm_num [round2]
    have hr0 : round2 (0 : ℚ) = 0 := by norm_num [round2]
    have hf : ruleFactors boundaryReading = ["High temperature"] := by
      norm_num [ruleFactors, boundaryReading, baseReading]
    rw [h1]
    simp only [predictFromLatest, hrisk, hdf, hr2, hr0, hf]

/-- Witness for C3_band_thresholds at risk 0.5. -/
theorem C3_band_thresholds_witness :
    determineFinal 0.5 = ("Maintenance recommended within 7 days", 0.5) :=
  (C3_band_thresholds.1 0.5).2.1 ⟨by norm_num, by norm_num⟩

/-- A sensor row whose equipment has a mappable status. -/
def activeRow : SensorReading := baseReading 1 "t" 0 0 0

/-- A sensor row whose equipment status (Idle) has no ordinal label. -/
def idleRow : SensorReading := baseReading 2 "t" 0 0 0

/-- Two equipment rows: one Active, one Idle (unmapped status). -/
def fleet : List Equipment := [⟨1, "Active"⟩, ⟨2, "Idle"⟩]

/-- Ten rows with mappable status. -/
def rows10 : List SensorReading := List.replicate 10 activeRow

/-- Ten mappable rows plus one row of the Idle equipment. -/
def rows11 : List SensorReading := rows10 ++ [idleRow]

/-- Twelve rows with mappable status. -/
def rows12 : List SensorReading := List.replicate 12 activeRow

/-- Claim C4 fails on the code as stated: on a dataset of 10 rows with
mappable statuses plus 1 row of an Idle (unmapped) equipment, the claim
counts 10 valid labeled rows and predicts that training is skipped, but
the code trains: y.fillna(0) runs before the NaN filter, so the Idle row
is kept with label 0 and the gate compares the full row count 11 > 10. -/
theorem C4_counterexample :
    trainingOccurs rows11 fleet = true ∧
    specValidLabeledRowCount rows11 fleet = 10 ∧ ¬ (10 > 10) := by
  refine ⟨by decide, by decide, by decide⟩

/-- Claim C4, amended: training fits both models iff the equipment list
is nonempty and the total number of sensor rows (mappable status or not)
exceeds 10; a row with an unmapped status is kept with label 0 rather
than excluded; with 10 rows both models remain unset, with 12 rows both
are populated. -/
theorem C4_training_gate :
    (∀ (sensor : List SensorReading) (equipment : List Equipment),
      trainingOccurs sensor equipment = true ↔
        equipment ≠ [] ∧ 10 < sensor.length) ∧
    trainingOccurs rows10 fleet = false ∧
    trainingOccurs rows12 fleet = true ∧
    failureLabel fleet idleRow = 0 ∧
    (trainingRows rows11 fleet).length = 11 := by
  refine ⟨?_, by decide, by decide, by decide, by decide⟩
  intro sensor equipment
  unfold trainingOccurs
  split_ifs with h
  · simp only [Bool.false_eq_true, false_iff, not_and]
    intro hne hlen
    rcases Bool.or_eq_true_iff.mp h with h1 | h1
    · have : sensor = [] := List.isEmpty_iff.mp h1
      subst this
      simp at hlen
    · exact hne (List.isEmpty_iff.mp h1)
  · rw [decide_eq_true_iff]
    simp only [trainingRows, List.length_map]
    constructor
    · intro hl
      refine ⟨?_, hl⟩
      intro he
      subst he
      simp at h
    · exact fun hp => hp.2

/-- Claim C5, confirmed: with no fitted anomaly model (and likewise on an
empty sensor dataset) detect_anomalies returns the response with an empty
anomalies list and the message "No anomaly detection model available";
the embedded function is total, mirroring that this source path performs
no raising operation. -/
theorem C5_detect_anomalies_unavailable :
    (∀ (sensor : List SensorReading) (eqid : Option Nat) (now : String),
      detect_anomalies sensor none eqid now =
        AnomalyResponse.unavailable [] "No anomaly detection model available") ∧
    (∀ (models : Option AnomalyModel) (eqid : Option Nat) (now : String),
      detect_anomalies [] models eqid now =
        AnomalyResponse.unavailable [] "No anomaly detection model available") ∧
    (∀ (sensor : List SensorReading) (eqid : Option Nat) (now : String),
      (detect_anomalies sensor none eqid now).anomaliesField = []) := by
  refine ⟨fun sensor eqid now => rfl, ?_, fun sensor eqid now => rfl⟩
  intro models eqid now
  cases models with
  | none => rfl
  | some det => rfl

/-- Claim C6, confirmed: the health score is 100 minus the stated
deductions, clamped to [0,100]; the clamped score maps to the stated
bands; and the example reading (temperature 70, vibration 0.4,
efficiency 60, oil level 20, usage 2500) clamps to 0 with status
Critical. -/
theorem C6_health_score (r : SensorReading) :
    healthScoreValue r =
      max 0 (min 100 ((100 : Int)
        - (if r.temperature > 60 then 30
           else if r.temperature > 50 then 15
           else if r.temperature < 20 then 10 else 0)
        - (if r.vibration > 0.3 then 25
           else if r.vibration > 0.2 then 10 else 0)
        - (match r.efficiency with
           | some e => if e < 70 then 20 else if e < 80 then 10 else 0
           | none => 0)
        - (match r.oil_level with
           | some o => if o < 30 then 25 else if o < 50 then 10 else 0
           | none => 0)
        - (if r.usage_hours > 2000 then 15
           else if r.usage_hours > 1500 then 5 else 0))) ∧
    0 ≤ healthScoreValue r ∧ healthScoreValue r ≤ 100 ∧
    (90 ≤ healthScoreValue r →
      healthStatus (healthScoreValue r) = "Excellent") ∧
    (75 ≤ healthScoreValue r ∧ healthScoreValue r < 90 →
      healthStatus (healthScoreValue r) = "Good") ∧
    (60 ≤ healthScoreValue r ∧ healthScoreValue r < 75 →
      healthStatus (healthScoreValue r) = "Fair") ∧
    (40 ≤ healthScoreValue r ∧ healthScoreValue r < 60 →
      healthStatus (healthScoreValue r) = "Poor") ∧
    (healthScoreValue r < 40 →
      healthStatus (healthScoreValue r) = "Critical") ∧
    get_equipment_health_score [criticalReading] 1 "t" =
      HealthResult.result 1 0 "Critical" "t" := by
  refine ⟨?_, ?_, ?_, ?_, ?_, ?_, ?_, ?_, ?_⟩
  · rcases hre : r.efficiency with _ | e <;> rcases hro : r.oil_level with _ | o <;>
      simp only [healthScoreValue, healthScoreUnclamped, hre, hro,
        subIf3, subIf2, subIfTop, sub_zero]
  · unfold healthScoreValue
    omega
  · unfold healthScoreValue
    omega
  · intro hb
    unfold healthStatus
    split_ifs <;> first | rfl | omega
  · rintro ⟨hb1, hb2⟩
    unfold healthStatus
    split_ifs <;> first | rfl | omega
  · rintro ⟨hb1, hb2⟩
    unfold healthStatus
    split_ifs <;> first | rfl | omega
  · rintro ⟨hb1, hb2⟩
    unfold healthStatus
    split_ifs <;> first | rfl | omega
  · intro hb
    unfold healthStatus
    split_ifs <;> first | rfl | omega
  · have h1 : get_equipment_health_score [criticalReading] 1 "t" =
        HealthResult.result 1 (healthScoreValue criticalReading)
          (healthStatus (healthScoreValue criticalReading)) "t" := rfl
    have h2 : healthScoreValue criticalReading = 0 := by
      norm_num [healthScoreValue, healthScoreUnclamped, criticalReading,
        baseReading]
    rw [h1, h2]
    rfl

/-- Witness for C6_health_score: a deduction-free reading scores 100 and
lands in the Excellent band. -/
theorem C6_health_score_witness :
    healthStatus (healthScoreValue goodReading) = "Excellent" :=
  (C6_health_score goodReading).2.2.2.1
    (by norm_num [healthScoreValue, healthScoreUnclamped, goodReading,
      baseReading])

/-- A classifier permitted by the serving interface that votes class 0
above 60 degrees and class 2 otherwise; RandomForest class predictions
carry no monotonicity guarantee, so such a fitted model is possible. -/
def coolSideClassifier : Classifier :=
  ⟨fun fv => if 60 < fv.headD 0 then ((0 : Fin 3), 1) else ((2 : Fin 3), 1)⟩

/-- The strictly worse reading of the monotonicity pair. -/
def monoA : SensorReading := baseReading 1 "t0" 61 0 0

/-- The strictly better reading of the monotonicity pair. -/
def monoB : SensorReading := baseReading 2 "t0" 55 0 0

/-- Claim C7 fails on the code as stated: under a trained classifier, a
reading that is at least as bad in every field can fuse to a strictly
smaller risk score, because the model's class vote enters the average and
nothing constrains it to be monotone. -/
theorem C7_counterexample :
    monoB.temperature ≤ monoA.temperature ∧
    monoB.vibration ≤ monoA.vibration ∧
    monoB.usage_hours ≤ monoA.usage_hours ∧
    (predict_maintenance [monoA, monoB] (some coolSideClassifier) 1
      "t").riskScoreField = some (0.2 : ℚ) ∧
    (predict_maintenance [monoA, monoB] (some coolSideClassifier) 2
      "t").riskScoreField = some (0.6 : ℚ) ∧
    ¬ ((0.6 : ℚ) ≤ (0.2 : ℚ)) := by
  refine ⟨by norm_num [monoA, monoB, baseReading],
    by norm_num [monoA, monoB, baseReading],
    by norm_num [monoA, monoB, baseReading], ?_, ?_, by norm_num⟩
  · have h1 : predict_maintenance [monoA, monoB] (some coolSideClassifier) 1
        "t" = predictFromLatest (some coolSideClassifier) 1 monoA "t" := rfl
    rw [h1, riskScoreField_predictFromLatest]
    have h2 : fusedRisk (some coolSideClassifier) monoA = 0.2 := by
      norm_num [fusedRisk, ruleScore, tempDelta, vibDelta, usageDelta,
        mlRiskScore, coolSideClassifier, featureVector, monoA, baseReading]
    rw [h2]
    norm_num [round2]
  · have h1 : predict_maintenance [monoA, monoB] (some coolSideClassifier) 2
        "t" = predictFromLatest (some coolSideClassifier) 2 monoB "t" := rfl
    rw [h1, riskScoreField_predictFromLatest]
    have h2 : fusedRisk (some coolSideClassifier) monoB = 0.6 := by
      norm_num [fusedRisk, ruleScore, tempDelta, vibDelta, usageDelta,
        mlRiskScore, coolSideClassifier, featureVector, monoB, baseReading]
    rw [h2]
    norm_num [round2]

/-- Claim C7, amended: with no trained classifier (the rule-only path),
the risk score is monotone in reading badness, both before and after the
2-decimal rounding applied to the reported field; with a classifier the
fused score is monotone only if the model's class vote is. -/
theorem C7_rule_monotonicity (rA rB : SensorReading)
    (ht : rB.temperature ≤ rA.temperature)
    (hv : rB.vibration ≤ rA.vibration)
    (hu : rB.usage_hours ≤ rA.usage_hours) :
    fusedRisk none rB ≤ fusedRisk none rA ∧
    round2 (fusedRisk none rB) ≤ round2 (fusedRisk none rA) := by
  have h : fusedRisk none rB ≤ fusedRisk none rA := by
    show ruleScore rB ≤ ruleScore rA
    have h1 := tempDelta_mono ht
    have h2 := vibDelta_mono hv
    have h3 := usageDelta_mono hu
    unfold ruleScore
    linarith
  exact ⟨h, round2_mono h⟩

/-- Witness for C7_rule_monotonicity on the concrete pair. -/
theorem C7_rule_monotonicity_witness :
    fusedRisk none monoB ≤ fusedRisk none monoA ∧
    round2 (fusedRisk none monoB) ≤ round2 (fusedRisk none monoA) :=
  C7_rule_monotonicity monoA monoB
    (by norm_num [monoA, monoB, baseReading])
    (by norm_num [monoA, monoB, baseReading])
    (by norm_num [monoA, monoB, baseReading])

/-- The timestamp field, when the result dict carries one. -/
def PredictionResult.timestampField : PredictionResult → Option String
  | .noData _ _ => none
  | .result _ _ _ _ _ _ _ t => some t

theorem timestampField_predictFromLatest (m : Option Classifier) (e : Nat)
    (r : SensorReading) (t : String) :
    (predictFromLatest m e r t).timestampField = some t := rfl

/-- Claim C8 fails on the code as stated: two calls with identical sensor
data, the same absent model and no retrain in between do not return
identical results field-for-field, because the timestamp field records
each call's own wall-clock time. -/
theorem C8_counterexample :
    predict_maintenance [quietReading] none 1 "2024-01-01T00:00:00" ≠
      predict_maintenance [quietReading] none 1 "2024-01-01T00:00:01" := by
  intro h
  have h2 := congrArg PredictionResult.timestampField h
  have e1 : predict_maintenance [quietReading] none 1 "2024-01-01T00:00:00" =
      predictFromLatest none 1 quietReading "2024-01-01T00:00:00" := rfl
  have e2 : predict_maintenance [quietReading] none 1 "2024-01-01T00:00:01" =
      predictFromLatest none 1 quietReading "2024-01-01T00:00:01" := rfl
  rw [e1, e2, timestampField_predictFromLatest,
    timestampField_predictFromLatest] at h2
  exact absurd (Option.some.inj h2) (by decide)

/-- Claim C8, amended: predict_maintenance is a deterministic function of
the data, the model and the call time; two calls with identical data and
no retrain agree on every field except timestamp, and the timestamp field,
when present, is exactly the call time. -/
theorem C8_deterministic_modulo_timestamp (sensor : List SensorReading)
    (models : Option Classifier) (eqid : Nat) (t1 t2 : String) :
    (predict_maintenance sensor models eqid t1).setTimestamp "" =
      (predict_maintenance sensor models eqid t2).setTimestamp "" ∧
    ((predict_maintenance sensor models eqid t1).timestampField = none ∨
      (predict_maintenance sensor models eqid t1).timestampField = some t1) := by
  unfold predict_maintenance
  cases h : (sensor.filter (fun r => r.equipment_id == eqid)).getLast? with
  | none => exact ⟨rfl, Or.inl rfl⟩
  | some latest => exact ⟨rfl, Or.inr rfl⟩

/-- A reading violating the temperature safety threshold. -/
def hotReading (eid : Nat) : SensorReading := baseReading eid "t" 85 0 0

/-- Three violating readings from three different equipments. -/
def threeHot : List SensorReading := [hotReading 1, hotReading 2, hotReading 3]

/-- A violation-free reading. -/
def cleanReading : SensorReading := baseReading 1 "t" 0 0 0

/-- Three violations by equipment 1, followed by five clean readings, so
every violation falls outside the last-5 window. -/
def staleBatch : List SensorReading :=
  hotReading 1 :: hotReading 1 :: hotReading 1 :: List.replicate 5 cleanReading

/-- Claim C9 fails on the code as stated: three single violations by
three different equipments trigger the safety insight, although no single
equipment has 3 violations within its own last five readings — the code
pools the last five readings of the whole batch with no per-equipment
grouping. -/
theorem C9_counterexample :
    safetyInsightEmitted threeHot = true ∧ specSafetyFlag threeHot = false := by
  constructor <;> decide

/-- Claim C9, amended: the safety insight is emitted exactly when at
least 3 condition violations (each reading contributing one for
temperature above 80 and one for vibration above 5, so a reading can
contribute two) occur within the last five readings of the entire batch,
pooled across all equipment; violations older than that window do not
count. -/
theorem C9_safety_gate :
    (∀ sensor : List SensorReading,
      safetyInsightEmitted sensor = true ↔
        3 ≤ ((if sensor.length ≥ 5 then sensor.drop (sensor.length - 5)
              else sensor).map
          (fun r => (if r.temperature > 80 then (1 : Nat) else 0)
            + (if r.vibration > 5 then 1 else 0))).sum) ∧
    safetyInsightEmitted staleBatch = false := by
  refine ⟨?_, by decide⟩
  intro sensor
  rw [show (fun r : SensorReading =>
      (if r.temperature > 80 then (1 : Nat) else 0)
        + (if r.vibration > 5 then 1 else 0)) = readingViolations from rfl]
  unfold safetyInsightEmitted safetyViolations recentSensors
  by_cases h : sensor.isEmpty = true
  · rw [if_pos h]
    have hnil : sensor = [] := List.isEmpty_iff.mp h
    subst hnil
    simp
  · rw [if_neg h, decide_eq_true_iff]
    omega

/-- Claim C10, confirmed: with no readings for the equipment (including
an entirely empty dataset) the health scorer returns the dict with
health_score 0 — the same value as the worst clamped score — and the
status string "No data", which lies outside the documented band set; the
embedded function is total, mirroring that the source path performs no
raising operation. -/
theorem C10_health_no_data (sensor : List SensorReading) (eqid : Nat)
    (now : String)
    (h : sensor.filter (fun r => r.equipment_id == eqid) = []) :
    get_equipment_health_score sensor eqid now =
      HealthResult.noData 0 "No data" ∧
    (get_equipment_health_score sensor eqid now).scoreField = 0 ∧
    "No data" ∉ ["Excellent", "Good", "Fair", "Poor", "Critical"] := by
  unfold get_equipment_health_score
  rw [h]
  exact ⟨rfl, rfl, by decide⟩

/-- Witness for C10_health_no_data on the empty dataset. -/
theorem C10_health_no_data_witness :
    get_equipment_health_score [] 4 "t" = HealthResult.noData 0 "No data" ∧
    (get_equipment_health_score [] 4 "t").scoreField = 0 ∧
    "No data" ∉ ["Excellent", "Good", "Fair", "Poor", "Critical"] :=
  C10_health_no_data [] 4 "t" rfl

end IOTSensor
